import Mathlib

/-!
Verification development for the ArenaLab run-orchestration system.

The repository under verification ships the Next.js frontend (pages,
components, the `api` HTTP client helper) together with documentation of the
backend orchestration engine.  The backend itself (run state machine, process
supervisor, health monitor, plugin execution coordinator) is not part of the
source tree; the definitions below that embed it are modelled from the
specification and are marked as such in their doc comments.  The `api` helper
and the status vocabulary are embedded directly from the frontend source.
-/

namespace ArenaLab

/-! ## Frontend HTTP client (`api` in `api-client`)

Embedded from the source file defining `api(path, options)`: after `fetch`
resolves, the helper parses the body (`null` on 204, JSON when the
content-type includes `application/json` with `null` on a JSON parse failure,
text otherwise); on a non-ok response it redirects to `/login` when the
status is 401 and throws an `Error` carrying `status`, `data` and `url`.
-/

/-- A JSON value as far as the helper observes it: `res.json()` may produce a
JavaScript string (relevant to the error-message construction) or any other
value, kept abstract. -/
inductive JsonValue
  | str (s : String)
  | other (rep : String)
deriving DecidableEq, Repr

/-- The parsed body `data`: `null`, a parsed JSON value, or raw text. -/
inductive ApiData
  | nullData
  | jsonData (v : JsonValue)
  | textData (s : String)
deriving DecidableEq, Repr

/-- The observable part of a `fetch` `Response`: its status code, the
`content-type` header value, the outcome of `res.json()` (`none` when parsing
throws) and the text body. -/
structure ApiResponse where
  status : Nat
  contentType : String
  jsonBody : Option JsonValue
  textBody : String
deriving DecidableEq, Repr

/-- `res.ok` per the fetch standard: status in the range 200–299. -/
def ApiResponse.ok (r : ApiResponse) : Bool :=
  decide (200 ≤ r.status) && decide (r.status ≤ 299)

/-- `ct.includes("application/json")`. -/
def includesJson (ct : String) : Bool :=
  decide ("application/json".toList <:+: ct.toList)

/-- The `parse` closure of `api`: 204 yields `null`; a JSON content type
yields the parsed JSON value or `null` when parsing fails; anything else
yields the text body. -/
def parseBody (r : ApiResponse) : ApiData :=
  if r.status = 204 then .nullData
  else if includesJson r.contentType then
    match r.jsonBody with
    | some v => .jsonData v
    | none => .nullData
  else .textData r.textBody

/-- `typeof data === "string"` after parsing: the raw-text branch, or a JSON
body that parsed to a string. -/
def dataAsString : ApiData → Option String
  | .textData s => some s
  | .jsonData (.str s) => some s
  | _ => none

/-- `data?.trim()` is truthy: the string still holds a non-whitespace
character once leading and trailing whitespace is removed. -/
def trimTruthy (s : String) : Bool :=
  s.toList.any (fun c => !c.isWhitespace)

/-- The message of the thrown `Error`: the body when it is a string with a
truthy trim, otherwise `HTTP <status>`. -/
def apiMessage (r : ApiResponse) : String :=
  match dataAsString (parseBody r) with
  | some s => if trimTruthy s then s else "HTTP " ++ toString r.status
  | none => "HTTP " ++ toString r.status

/-- The `Error` thrown on a non-ok response, with the fields `api` sets on
it before throwing. -/
structure ApiError where
  message : String
  status : Nat
  data : ApiData
  url : String
deriving DecidableEq, Repr

/-- The caller-visible outcome of one `api` call whose `fetch` completed:
either the parsed body or the thrown error, together with whether the
browser was redirected to `/login`. -/
structure ApiOutcome where
  result : Except ApiError ApiData
  redirectedToLogin : Bool
deriving Repr

/-- The response-handling tail of `api`, from the source: parse the body;
when `res.ok`, return it; otherwise redirect to `/login` on status 401 and
throw an `Error` carrying the message, status, parsed data and url. -/
def apiHandleResponse (url : String) (r : ApiResponse) : ApiOutcome :=
  let data := parseBody r
  if r.ok then
    { result := .ok data, redirectedToLogin := false }
  else
    { result := .error { message := apiMessage r, status := r.status,
                         data := data, url := url },
      redirectedToLogin := r.status == 401 }

/-! ## Run state machine

The backend Run State Machine (spec §4.1) is not under `src/`; only its
frontend callers are (`controlRun`, the status-gated buttons).  The
definitions in this section are therefore modelled from the specification.
The seven status names are those the frontend source matches on
(`created`, `starting`, `running`, `succeeded`, `failed`, `stopped`,
`killed`).
-/

/-- Modelled from the spec: lifecycle states of the backend Run State
Machine, which is not under `src/`.  `created → starting → running →
\x7bsucceeded, failed, stopped, killed\x7d`. -/
inductive RunStatus
  | created
  | starting
  | running
  | succeeded
  | failed
  | stopped
  | killed
deriving DecidableEq, Repr

/-- The status string stored and reported for a run, as the frontend
source matches on it. -/
def statusName : RunStatus → String
  | .created => "created"
  | .starting => "starting"
  | .running => "running"
  | .succeeded => "succeeded"
  | .failed => "failed"
  | .stopped => "stopped"
  | .killed => "killed"

/-- The immutable configuration snapshot fixed at run creation: the YAML
configuration and the CLI flags (both shown as read-only in the run detail
page). -/
structure Snapshot where
  yamlConfig : String
  cliFlags : List (String × String)
deriving DecidableEq, Repr

/-- Modelled from the spec: the Run record's orchestration-owned fields,
maintained by the backend state machine and supervisor (not under `src/`). -/
structure Run where
  snapshot : Snapshot
  status : RunStatus
  executionCount : Nat
  startedAt : Option Nat
  endedAt : Option Nat
  lastRestartedAt : Option Nat
  processHandle : Option Nat
deriving DecidableEq, Repr

/-- Restart modes, surfaced in the frontend restart dialog as
`--resume` and `--force`. -/
inductive RestartMode
  | resume
  | force
deriving DecidableEq, Repr

/-- The flag the chosen restart mode passes to the spawned process, per the
frontend restart dialog. -/
def modeFlag : RestartMode → String
  | .resume => "--resume"
  | .force => "--force"

/-- The argument list for a spawn: arguments derived from the immutable
snapshot plus the mode flag when restarting. -/
def launchArgs (s : Snapshot) (mode : Option RestartMode) : List String :=
  s.cliFlags.map (fun p => p.1 ++ "=" ++ p.2) ++
    (match mode with
     | some m => [modeFlag m]
     | none => [])

/-- Modelled from the spec: every rejected transition names the current
state and the attempted one (`InvalidTransition` in the error taxonomy of
the backend, which is not under `src/`). -/
inductive OrchError
  | invalidTransition (current : RunStatus) (attempted : RunStatus)
deriving DecidableEq, Repr

/-- A freshly created run: snapshot fixed, status `created`, no spawn has
ever happened. -/
def mkRun (s : Snapshot) : Run :=
  { snapshot := s, status := .created, executionCount := 0,
    startedAt := none, endedAt := none, lastRestartedAt := none,
    processHandle := none }

/-- Modelled from the spec: `execute` (created → starting), only legal from
`created`, rejected with `InvalidTransition` from any other state; a spawn
attempt increments `execution_count` and stamps `started_at`.  The backend
endpoint is not under `src/`. -/
def execute (now pid : Nat) (r : Run) : Except OrchError Run :=
  if r.status = .created then
    .ok { r with
          status := .starting
          executionCount := r.executionCount + 1
          startedAt := some now
          processHandle := some pid }
  else .error (.invalidTransition r.status .starting)

/-- Modelled from the spec: `starting → running` once the spawned process
is confirmed alive by the supervisor (not under `src/`). -/
def confirmAlive (r : Run) : Except OrchError Run :=
  if r.status = .starting then .ok { r with status := .running }
  else .error (.invalidTransition r.status .running)

/-- Modelled from the spec: on process exit the supervisor (not under
`src/`) moves a `running` run to `succeeded` when the exit code is 0 and to
`failed` otherwise, finalizing the end timestamp with the transition. -/
def processExited (exitCode now : Nat) (r : Run) : Except OrchError Run :=
  if r.status = .running then
    .ok { r with
          status := if exitCode = 0 then .succeeded else .failed
          endedAt := some now
          processHandle := none }
  else .error (.invalidTransition r.status
                (if exitCode = 0 then .succeeded else .failed))

/-- Modelled from the spec: `stop(run, timeout)` on a `running`/`starting`
run — the supervisor (not under `src/`) sends a graceful termination
request; when the process exits within the grace period the run becomes
`stopped`, otherwise the supervisor escalates to a forced kill and the run
becomes `killed`.  `exitsAfter` is how long the process takes to exit
cooperatively (`none`: it ignores the signal). -/
def stopRun (exitsAfter : Option Nat) (grace now : Nat) (r : Run) :
    Except OrchError Run :=
  if r.status = .running ∨ r.status = .starting then
    match exitsAfter with
    | some t =>
        if t ≤ grace then
          .ok { r with
                status := .stopped
                endedAt := some now
                processHandle := none }
        else
          .ok { r with
                status := .killed
                endedAt := some now
                processHandle := none }
    | none =>
        .ok { r with
              status := .killed
              endedAt := some now
              processHandle := none }
  else .error (.invalidTransition r.status .stopped)

/-- Modelled from the spec: `forceKill` — unconditional termination of a
live (`running`/`starting`) run, always transitioning to `killed`; the
backend path is not under `src/`. -/
def forceKill (now : Nat) (r : Run) : Except OrchError Run :=
  if r.status = .running ∨ r.status = .starting then
    .ok { r with
          status := .killed
          endedAt := some now
          processHandle := none }
  else .error (.invalidTransition r.status .killed)

/-- The states from which a restart is accepted: `failed`, `stopped`,
`killed`, and `succeeded` (the run detail page offers the restart dialog in
exactly these states). -/
def restartable (st : RunStatus) : Bool :=
  st = .failed || st = .stopped || st = .killed || st = .succeeded

/-- Modelled from the spec: the Restart Controller (not under `src/`) —
accepted only from `failed`/`stopped`/`killed`/`succeeded`, rejected with
`InvalidTransition` otherwise; on acceptance it increments
`execution_count`, sets `last_restarted_at`, clears the stale process
handle and relaunches with the same immutable snapshot plus the mode
flag. -/
def restart (mode : RestartMode) (now pid : Nat) (r : Run) :
    Except OrchError Run :=
  if restartable r.status then
    .ok { r with
          status := .starting
          executionCount := r.executionCount + 1
          lastRestartedAt := some now
          startedAt := some now
          processHandle := some pid }
  else .error (.invalidTransition r.status .starting)

/-- One requested operation on a run (the control surface exposed to
callers). -/
inductive RunOp
  | execute (now pid : Nat)
  | confirmAlive
  | processExited (exitCode now : Nat)
  | stop (exitsAfter : Option Nat) (grace now : Nat)
  | forceKill (now : Nat)
  | restart (mode : RestartMode) (now pid : Nat)
deriving DecidableEq, Repr

/-- A rejected operation leaves the run unchanged; an accepted one yields
the new run record. -/
def applyResult (r : Run) : Except OrchError Run → Run
  | .ok r2 => r2
  | .error _ => r

/-- Apply one requested operation to a run, keeping the run unchanged when
the operation is rejected. -/
def applyOp (r : Run) : RunOp → Run
  | .execute now pid => applyResult r (execute now pid r)
  | .confirmAlive => applyResult r (confirmAlive r)
  | .processExited code now => applyResult r (processExited code now r)
  | .stop exitsAfter grace now => applyResult r (stopRun exitsAfter grace now r)
  | .forceKill now => applyResult r (forceKill now r)
  | .restart mode now pid => applyResult r (restart mode now pid r)

/-- Apply a sequence of requested operations in order. -/
def applyOps (r : Run) (ops : List RunOp) : Run :=
  ops.foldl applyOp r

/-! ## Health monitor

The backend Health Monitor (spec §4.3) is not under `src/`; the run detail
page only displays the `HealthSample` fields it returns.  The classifier is
modelled from the specification: stuck iff log silence exceeds the
phase-appropriate threshold and the runtime exceeds the minimum grace
period.
-/

/-- Modelled from the spec: the tunable health-monitor thresholds
(configuration, not hardcoded) of the backend, which is not under `src/`. -/
structure HealthConfig where
  startupThreshold : Nat
  steadyThreshold : Nat
  minGraceSeconds : Nat
deriving DecidableEq, Repr

/-- The `HealthSample` record the frontend displays: `healthy`, `stuck`,
`reason`, `runtime_seconds`, `seconds_since_log_update`, `pid`. -/
structure HealthSample where
  healthy : Bool
  stuck : Bool
  reason : String
  runtimeSeconds : Nat
  secondsSinceLogUpdate : Nat
  pid : Option Nat
deriving DecidableEq, Repr

/-- Modelled from the spec: the log-silence threshold in force for the
current phase — the startup-phase threshold while `starting`, the
steady-state threshold once `running`. -/
def phaseThreshold (cfg : HealthConfig) (st : RunStatus) : Nat :=
  if st = .starting then cfg.startupThreshold else cfg.steadyThreshold

/-- Modelled from the spec: the Health Monitor classifier (not under
`src/`) — a run is stuck when `seconds_since_log_update` exceeds the
phase-appropriate threshold and `runtime_seconds` exceeds the minimum grace
period. -/
def classifyHealth (cfg : HealthConfig) (st : RunStatus)
    (runtimeSeconds secondsSinceLog : Nat) (pid : Option Nat) :
    HealthSample :=
  let stuck := decide (phaseThreshold cfg st < secondsSinceLog) &&
               decide (cfg.minGraceSeconds < runtimeSeconds)
  { healthy := !stuck, stuck := stuck,
    reason := if stuck then "no recent log activity" else "ok",
    runtimeSeconds := runtimeSeconds,
    secondsSinceLogUpdate := secondsSinceLog, pid := pid }

/-! ## Process supervisor registry

The backend Process Supervisor (spec §4.2, §5) is not under `src/`; the
architecture notes only say that global in-memory dictionaries track active
processes.  The registry and its duplicate-launch guard are modelled from
the specification: at most one live entry per run id, `SpawnError` on a
duplicate launch.
-/

/-- Modelled from the spec: `SpawnError` — process could not be launched:
the executable or working directory is missing, or a process for that run
id is already registered.  The backend supervisor is not under `src/`. -/
inductive SpawnError
  | missingEnvironment
  | alreadyRegistered (runId : String)
deriving DecidableEq, Repr

/-- The process-id-to-run mapping: the registered (runId, pid) pairs. -/
abbrev Registry := List (String × Nat)

/-- Whether a live process is registered against a run id. -/
def registered (reg : Registry) (runId : String) : Bool :=
  reg.any (fun p => p.1 == runId)

/-- How many live entries the registry holds for a run id. -/
def liveCount (reg : Registry) (runId : String) : Nat :=
  reg.countP (fun p => p.1 == runId)

/-- Modelled from the spec: `launch` of the supervisor (not under `src/`) —
fails with `SpawnError` when the executable or working directory is missing
(`envOk = false`) or when a process for that run id is already registered,
and otherwise records the process identifier against the run. -/
def launch (reg : Registry) (runId : String) (pid : Nat) (envOk : Bool) :
    Except SpawnError Registry :=
  if envOk = false then .error .missingEnvironment
  else if registered reg runId then .error (.alreadyRegistered runId)
  else .ok ((runId, pid) :: reg)

/-- Modelled from the spec: the watcher observed the process exit (or the
run was stopped/killed), so its registry entry is cleared. -/
def clearProcess (reg : Registry) (runId : String) : Registry :=
  reg.filter (fun p => !(p.1 == runId))

/-- One supervisor event: a launch request for a run, or the disappearance
of its live process. -/
inductive SupEvent
  | launch (runId : String) (pid : Nat) (envOk : Bool)
  | cleared (runId : String)
deriving DecidableEq, Repr

/-- Apply one supervisor event to the registry; a failed launch leaves the
registry unchanged. -/
def supStep (reg : Registry) : SupEvent → Registry
  | .launch runId pid envOk =>
      match launch reg runId pid envOk with
      | .ok reg2 => reg2
      | .error _ => reg
  | .cleared runId => clearProcess reg runId

/-- The registry reached from the empty initial registry by a sequence of
supervisor events. -/
def supTrace (events : List SupEvent) : Registry :=
  events.foldl supStep []

/-! ## Plugin execution coordinator

The Plugin Execution Coordinator (spec §4.5) ships in the next version of
the product (per the plugin development guide) and is not under `src/`; the
experiment page only lists `PluginExecution` records and gates its buttons
on their status.  The single-flight rule is modelled from the
specification.
-/

/-- The automation target scopes: experiment, run, or revision. -/
inductive PluginScope
  | experiment
  | run
  | revision
deriving DecidableEq, Repr

/-- Status of a `PluginExecution`:
`pending | running | completed | failed | stopped`. -/
inductive PluginStatus
  | pending
  | running
  | completed
  | failed
  | stopped
deriving DecidableEq, Repr

/-- One invocation of an automation routine, as tracked by the
coordinator. -/
structure PluginExecution where
  executionId : Nat
  pluginName : String
  scope : PluginScope
  targetId : String
  status : PluginStatus
deriving DecidableEq, Repr

/-- How many `running` PluginExecutions a given target currently has. -/
def runningFor (execs : List PluginExecution) (scope : PluginScope)
    (targetId : String) : Nat :=
  execs.countP
    (fun e => decide (e.scope = scope ∧ e.targetId = targetId ∧
                      e.status = .running))

/-- Modelled from the spec: the error rejecting a `startPlugin` for a
target that already has a running PluginExecution (coordinator not under
`src/`). -/
inductive PluginError
  | alreadyRunning (scope : PluginScope) (targetId : String)
deriving DecidableEq, Repr

/-- Modelled from the spec: `startPlugin` of the coordinator (not under
`src/`) — rejected when the target already has a `running`
PluginExecution; otherwise a new PluginExecution record is created
(appended) in status `running` rather than resuming a prior one. -/
def startPlugin (execs : List PluginExecution) (name : String)
    (scope : PluginScope) (targetId : String) (freshId : Nat) :
    Except PluginError (List PluginExecution) :=
  if 0 < runningFor execs scope targetId then
    .error (.alreadyRunning scope targetId)
  else
    .ok (execs ++ [{ executionId := freshId, pluginName := name,
                     scope := scope, targetId := targetId,
                     status := .running }])

/-- The terminal statuses the coordinator assigns when a routine finishes:
completed on normal return, failed on error, stopped after cooperative
cancellation. -/
inductive PluginFinal
  | completed
  | failed
  | stopped
deriving DecidableEq, Repr

/-- The `PluginStatus` a finishing routine is marked with. -/
def finalStatus : PluginFinal → PluginStatus
  | .completed => .completed
  | .failed => .failed
  | .stopped => .stopped

/-- Modelled from the spec: the coordinator marks a finished execution with
its terminal status. -/
def finishPlugin (execs : List PluginExecution) (execId : Nat)
    (fin : PluginFinal) : List PluginExecution :=
  execs.map (fun e =>
    if e.executionId = execId then { e with status := finalStatus fin }
    else e)

/-- One coordinator event: a start request or a routine finishing. -/
inductive CoordEvent
  | start (name : String) (scope : PluginScope) (targetId : String)
      (freshId : Nat)
  | finish (execId : Nat) (fin : PluginFinal)

/-- Apply one coordinator event; a rejected start leaves the execution list
unchanged. -/
def coordStep (execs : List PluginExecution) : CoordEvent →
    List PluginExecution
  | .start name scope targetId freshId =>
      match startPlugin execs name scope targetId freshId with
      | .ok l => l
      | .error _ => execs
  | .finish execId fin => finishPlugin execs execId fin

/-- The execution list reached from no executions by a sequence of
coordinator events. -/
def coordTrace (events : List CoordEvent) : List PluginExecution :=
  events.foldl coordStep []

/-! ## Theorems -/

/-- C10: the `api` helper returns the parsed body (JSON when the
content-type includes `application/json`, text otherwise, `null` for status
204) exactly when `res.ok` holds; when `res.ok` is false it throws an
`Error` whose `status`, `data` and `url` fields are set from the response,
redirecting the browser to `/login` first exactly when the status is 401 —
so a caller never receives a normal return value from a failed request. -/
theorem api_failed_requests_throw (url : String) (r : ApiResponse) :
    ((apiHandleResponse url r).result = Except.ok (parseBody r) ↔
      r.ok = true)
    ∧ (r.ok = false →
        (apiHandleResponse url r).result =
          Except.error { message := apiMessage r, status := r.status,
                         data := parseBody r, url := url })
    ∧ ((apiHandleResponse url r).redirectedToLogin =
        (!r.ok && r.status == 401))
    ∧ (r.status = 204 → parseBody r = ApiData.nullData)
    ∧ (r.status ≠ 204 → includesJson r.contentType = true →
        parseBody r = (match r.jsonBody with
                       | some v => ApiData.jsonData v
                       | none => ApiData.nullData))
    ∧ (r.status ≠ 204 → includesJson r.contentType = false →
        parseBody r = ApiData.textData r.textBody) := by
  refine ⟨?_, ?_, ?_, ?_, ?_, ?_⟩
  · unfold apiHandleResponse
    cases h : r.ok <;> simp [h]
  · intro h
    unfold apiHandleResponse
    simp [h]
  · unfold apiHandleResponse
    cases h : r.ok <;> simp [h]
  · intro h
    unfold parseBody
    simp [h]
  · intro h hj
    unfold parseBody
    simp [h, hj]
  · intro h hj
    unfold parseBody
    simp [h, hj]

/-- Witness for C10: a concrete 401 text response is thrown as an error
carrying its status, body and url. -/
theorem api_failed_requests_throw_witness :
    (apiHandleResponse "/api/runs/1"
        ⟨401, "text/plain", none, "Unauthorized"⟩).result =
      Except.error { message := "Unauthorized", status := 401,
                     data := ApiData.textData "Unauthorized",
                     url := "/api/runs/1" } := by
  have h := (api_failed_requests_throw "/api/runs/1"
      ⟨401, "text/plain", none, "Unauthorized"⟩).2.1 rfl
  rw [h]
  rfl

/-- C2: `execute` succeeds (moving the run from `created` to `starting`,
incrementing the spawn counter and stamping `started_at`) exactly when the
run's status is `created`; from any other status it fails with
`InvalidTransition` and leaves the run's state unchanged. -/
theorem execute_only_from_created (now pid : Nat) (r : Run) :
    (r.status = RunStatus.created →
      execute now pid r = Except.ok
        { r with
          status := .starting
          executionCount := r.executionCount + 1
          startedAt := some now
          processHandle := some pid })
    ∧ (r.status ≠ RunStatus.created →
        execute now pid r = Except.error
          (OrchError.invalidTransition r.status .starting)
        ∧ applyOp r (RunOp.execute now pid) = r) := by
  constructor
  · intro h
    unfold execute
    simp [h]
  · intro h
    have he : execute now pid r =
        Except.error (OrchError.invalidTransition r.status .starting) := by
      unfold execute
      simp [h]
    exact ⟨he, by simp [applyOp, he, applyResult]⟩

/-- Witness for C2: a fresh run executes into `starting`; executing again
from `running` is rejected and mutates nothing. -/
theorem execute_only_from_created_witness :
    (execute 5 77 (mkRun ⟨"net", []⟩) = Except.ok
      { mkRun ⟨"net", []⟩ with
        status := .starting
        executionCount := 1
        startedAt := some 5
        processHandle := some 77 })
    ∧ (execute 6 78 { mkRun ⟨"net", []⟩ with status := .running } =
        Except.error (OrchError.invalidTransition .running .starting)
      ∧ applyOp { mkRun ⟨"net", []⟩ with status := .running }
          (RunOp.execute 6 78) =
        { mkRun ⟨"net", []⟩ with status := .running }) := by
  exact ⟨(execute_only_from_created 5 77 (mkRun ⟨"net", []⟩)).1 rfl,
         (execute_only_from_created 6 78
           { mkRun ⟨"net", []⟩ with status := .running }).2 (by decide)⟩

/-- A status is restartable exactly when it is `failed`, `stopped`,
`killed` or `succeeded`. -/
theorem restartable_iff (st : RunStatus) :
    restartable st = true ↔
      (st = .failed ∨ st = .stopped ∨ st = .killed ∨ st = .succeeded) := by
  cases st <;> decide

/-- C7: a restart is accepted exactly when the run's status is one of
`failed`, `stopped`, `killed` or `succeeded`; a restart requested on a
`running` run is rejected with `InvalidTransition`. -/
theorem restart_gate (mode : RestartMode) (now pid : Nat) (r : Run) :
    ((∃ r2, restart mode now pid r = Except.ok r2) ↔
      (r.status = .failed ∨ r.status = .stopped ∨ r.status = .killed ∨
        r.status = .succeeded))
    ∧ (r.status = .running →
        restart mode now pid r = Except.error
          (OrchError.invalidTransition .running .starting)) := by
  constructor
  · rw [← restartable_iff r.status]
    constructor
    · rintro ⟨r2, h⟩
      by_contra hr
      rw [Bool.not_eq_true] at hr
      unfold restart at h
      rw [hr] at h
      simp at h
    · intro hr
      refine ⟨{ r with
          status := .starting
          executionCount := r.executionCount + 1
          lastRestartedAt := some now
          startedAt := some now
          processHandle := some pid }, ?_⟩
      unfold restart
      rw [hr]
      simp
  · intro h
    unfold restart
    rw [h]
    simp [restartable]

/-- Witness for C7: a concrete `failed` run restarts; a concrete `running`
run is rejected with `InvalidTransition`. -/
theorem restart_gate_witness :
    (∃ r2, restart RestartMode.resume 9 40
        { mkRun ⟨"w", []⟩ with status := .failed } = Except.ok r2)
    ∧ restart RestartMode.force 9 41
        { mkRun ⟨"w", []⟩ with status := .running } =
      Except.error (OrchError.invalidTransition .running .starting) := by
  refine ⟨?_, ?_⟩
  · exact (restart_gate RestartMode.resume 9 40
      { mkRun ⟨"w", []⟩ with status := .failed }).1.mpr (Or.inl rfl)
  · exact (restart_gate RestartMode.force 9 41
      { mkRun ⟨"w", []⟩ with status := .running }).2 rfl

/-- C3: a `stop` on a live (`running`/`starting`) run ends in `stopped`
exactly when the process exits cooperatively within the grace period;
otherwise the supervisor escalates and the run ends `killed`, never
`stopped`. -/
theorem stop_escalates_to_killed (exitsAfter : Option Nat) (grace now : Nat)
    (r : Run) (hlive : r.status = .running ∨ r.status = .starting) :
    (∃ r2, stopRun exitsAfter grace now r = Except.ok r2 ∧
      r2.status = (match exitsAfter with
                   | some t => if t ≤ grace then RunStatus.stopped
                               else RunStatus.killed
                   | none => RunStatus.killed))
    ∧ (∀ r2, stopRun exitsAfter grace now r = Except.ok r2 →
        (r2.status = RunStatus.stopped ↔
          ∃ t, exitsAfter = some t ∧ t ≤ grace)) := by
  unfold stopRun
  rw [if_pos hlive]
  cases exitsAfter with
  | none =>
      refine ⟨⟨_, rfl, rfl⟩, ?_⟩
      intro r2 h
      cases h
      simp
  | some t =>
      dsimp only
      by_cases ht : t ≤ grace
      · rw [if_pos ht]
        refine ⟨⟨_, rfl, by simp [ht]⟩, ?_⟩
        intro r2 h
        cases h
        simp [ht]
      · rw [if_neg ht]
        refine ⟨⟨_, rfl, by simp [ht]⟩, ?_⟩
        intro r2 h
        cases h
        simp [ht]

/-- Witness for C3: with a 10-second grace period, a process exiting after
30 seconds yields `killed` while one exiting after 3 seconds yields
`stopped`. -/
theorem stop_escalates_to_killed_witness :
    (∃ r2, stopRun (some 30) 10 99
        { mkRun ⟨"w2", []⟩ with status := .running } = Except.ok r2 ∧
      r2.status = RunStatus.killed)
    ∧ (∃ r2, stopRun (some 3) 10 99
        { mkRun ⟨"w2", []⟩ with status := .running } = Except.ok r2 ∧
      r2.status = RunStatus.stopped) := by
  constructor
  · exact (stop_escalates_to_killed (some 30) 10 99
      { mkRun ⟨"w2", []⟩ with status := .running } (Or.inl rfl)).1
  · exact (stop_escalates_to_killed (some 3) 10 99
      { mkRun ⟨"w2", []⟩ with status := .running } (Or.inl rfl)).1

/-- One full successful attempt cycle: from `starting`, the process is
confirmed alive, exits, and the run is restarted. -/
def attemptCycle (exitCode : Nat) (mode : RestartMode) (r : Run) : Run :=
  applyOp (applyOp (applyOp r .confirmAlive) (.processExited exitCode 0))
    (.restart mode 0 0)

/-- From `starting`, one attempt cycle returns to `starting` with the
execution counter bumped by exactly one and `last_restarted_at` set. -/
theorem attemptCycle_step (exitCode : Nat) (mode : RestartMode) (r : Run)
    (h : r.status = .starting) :
    (attemptCycle exitCode mode r).status = .starting ∧
    (attemptCycle exitCode mode r).executionCount =
      r.executionCount + 1 := by
  by_cases hc : exitCode = 0 <;>
    simp [attemptCycle, applyOp, applyResult, confirmAlive, processExited,
      restart, restartable, h, hc]

/-- Iterating attempt cycles from `starting` keeps the run in `starting`
and adds one execution per cycle. -/
theorem attemptCycle_iterate (exitCode : Nat) (mode : RestartMode)
    (n : Nat) (r : Run) (h : r.status = .starting) :
    ((attemptCycle exitCode mode)^[n] r).status = .starting ∧
    ((attemptCycle exitCode mode)^[n] r).executionCount =
      r.executionCount + n := by
  induction n generalizing r with
  | zero => exact ⟨by simpa using h, by simp⟩
  | succ n ih =>
      have hs := attemptCycle_step exitCode mode r h
      rw [Function.iterate_succ_apply]
      have h2 := ih (attemptCycle exitCode mode r) hs.1
      refine ⟨h2.1, ?_⟩
      rw [h2.2, hs.2]
      omega

/-- C4: every accepted restart increments `execution_count` by exactly one
and sets `last_restarted_at`; a run executed once and then successfully
restarted N times has `execution_count = N + 1`. -/
theorem execution_count_after_restarts (s : Snapshot) (exitCode : Nat)
    (mode : RestartMode) (n : Nat) :
    ((attemptCycle exitCode mode)^[n]
        (applyOp (mkRun s) (.execute 0 0))).executionCount = n + 1
    ∧ (∀ r now pid, restartable r.status = true →
        ∃ r2, restart mode now pid r = Except.ok r2 ∧
          r2.executionCount = r.executionCount + 1 ∧
          r2.lastRestartedAt = some now) := by
  constructor
  · have h0 : (applyOp (mkRun s) (RunOp.execute 0 0)).status = .starting ∧
        (applyOp (mkRun s) (RunOp.execute 0 0)).executionCount = 1 := by
      constructor <;> simp [applyOp, applyResult, execute, mkRun]
    have h1 := attemptCycle_iterate exitCode mode n _ h0.1
    rw [h1.2, h0.2]
    omega
  · intro r now pid hr
    refine ⟨{ r with
        status := .starting
        executionCount := r.executionCount + 1
        lastRestartedAt := some now
        startedAt := some now
        processHandle := some pid }, ?_, rfl, rfl⟩
    unfold restart
    rw [hr]
    simp

/-- Witness for C4: a run executed once and restarted three times reaches
`execution_count = 4`, and a concrete restart of a `failed` run bumps the
counter and stamps the restart time. -/
theorem execution_count_after_restarts_witness :
    ((attemptCycle 0 RestartMode.resume)^[3]
        (applyOp (mkRun ⟨"w3", []⟩) (.execute 0 0))).executionCount = 4
    ∧ (∃ r2, restart RestartMode.resume 7 50
        { mkRun ⟨"w3", []⟩ with status := .failed } = Except.ok r2 ∧
        r2.executionCount = 1 ∧ r2.lastRestartedAt = some 7) := by
  refine ⟨(execution_count_after_restarts ⟨"w3", []⟩ 0
    RestartMode.resume 3).1, ?_⟩
  exact (execution_count_after_restarts ⟨"w3", []⟩ 0 RestartMode.resume 3).2
    { mkRun ⟨"w3", []⟩ with status := .failed } 7 50 rfl

/-- Every single requested operation, accepted or rejected, leaves the
configuration snapshot unchanged. -/
theorem applyOp_snapshot (r : Run) (op : RunOp) :
    (applyOp r op).snapshot = r.snapshot := by
  cases op with
  | execute now pid =>
      show (applyResult r (execute now pid r)).snapshot = r.snapshot
      unfold execute
      split <;> simp [applyResult]
  | confirmAlive =>
      show (applyResult r (confirmAlive r)).snapshot = r.snapshot
      unfold confirmAlive
      split <;> simp [applyResult]
  | processExited code now =>
      show (applyResult r (processExited code now r)).snapshot = r.snapshot
      unfold processExited
      split <;> simp [applyResult]
  | stop exitsAfter grace now =>
      show (applyResult r (stopRun exitsAfter grace now r)).snapshot =
        r.snapshot
      unfold stopRun
      split
      · split
        · split <;> simp [applyResult]
        · simp [applyResult]
      · simp [applyResult]
  | forceKill now =>
      show (applyResult r (forceKill now r)).snapshot = r.snapshot
      unfold forceKill
      split <;> simp [applyResult]
  | restart mode now pid =>
      show (applyResult r (restart mode now pid r)).snapshot = r.snapshot
      unfold restart
      split <;> simp [applyResult]

/-- Sequences of requested operations never touch the snapshot. -/
theorem applyOps_snapshot (ops : List RunOp) (r : Run) :
    (applyOps r ops).snapshot = r.snapshot := by
  induction ops generalizing r with
  | nil => rfl
  | cons op rest ih =>
      show (applyOps (applyOp r op) rest).snapshot = r.snapshot
      rw [ih, applyOp_snapshot]

/-- C5: after any sequence of execute/stop/forceKill/restart operations in
either mode, the run's configuration snapshot equals the snapshot fixed at
creation; a restart mode only appends its flag to the spawn invocation,
leaving the snapshot-derived arguments verbatim. -/
theorem snapshot_never_rewritten (s : Snapshot) (ops : List RunOp) :
    (applyOps (mkRun s) ops).snapshot = s
    ∧ launchArgs s (some RestartMode.force) =
        launchArgs s none ++ ["--force"]
    ∧ launchArgs s (some RestartMode.resume) =
        launchArgs s none ++ ["--resume"] := by
  refine ⟨?_, ?_, ?_⟩
  · rw [applyOps_snapshot]
    rfl
  · simp [launchArgs, modeFlag]
  · simp [launchArgs, modeFlag]

/-- C6: a health sample is `stuck` exactly when log silence exceeds the
phase-appropriate threshold (startup threshold while `starting`, steady
threshold while `running`) and the runtime exceeds the minimum grace
period; any sample whose runtime is within the grace period is never
`stuck`, regardless of log silence. -/
theorem stuck_requires_grace (cfg : HealthConfig) (st : RunStatus)
    (rt sl : Nat) (pid : Option Nat) :
    ((classifyHealth cfg st rt sl pid).stuck = true ↔
      (phaseThreshold cfg st < sl ∧ cfg.minGraceSeconds < rt))
    ∧ (rt ≤ cfg.minGraceSeconds →
        (classifyHealth cfg st rt sl pid).stuck = false)
    ∧ phaseThreshold cfg .starting = cfg.startupThreshold
    ∧ phaseThreshold cfg .running = cfg.steadyThreshold := by
  refine ⟨?_, ?_, rfl, rfl⟩
  · simp [classifyHealth]
  · intro h
    have h2 : ¬ cfg.minGraceSeconds < rt := by omega
    simp [classifyHealth, h2]

/-- Witness for C6: a run silent for a long time but only just launched is
not flagged stuck. -/
theorem stuck_requires_grace_witness :
    (classifyHealth ⟨60, 300, 120⟩ RunStatus.running 0 100000
      (some 4242)).stuck = false := by
  exact (stuck_requires_grace ⟨60, 300, 120⟩ RunStatus.running 0 100000
    (some 4242)).2.1 (by decide)

/-- C9: the status stored and reported for a run reached by any sequence
of operations from creation is always one of the seven values `created`,
`starting`, `running`, `succeeded`, `failed`, `stopped`, `killed`; in
particular the state machine never produces `pending`. -/
theorem status_vocabulary (s : Snapshot) (ops : List RunOp) :
    statusName (applyOps (mkRun s) ops).status ∈
      ["created", "starting", "running", "succeeded", "failed", "stopped",
       "killed"]
    ∧ statusName (applyOps (mkRun s) ops).status ≠ "pending" := by
  cases h : (applyOps (mkRun s) ops).status <;> decide

/-- A run id that is not registered has zero live entries. -/
theorem liveCount_eq_zero_of_not_registered (reg : Registry) (rid : String)
    (h : registered reg rid = false) : liveCount reg rid = 0 := by
  unfold registered at h
  unfold liveCount
  rw [List.countP_eq_zero]
  rw [List.any_eq_false] at h
  exact h

/-- One supervisor event preserves the at-most-one-live-entry bound for
every run id. -/
theorem liveCount_supStep (reg : Registry) (e : SupEvent) (rid : String)
    (h : liveCount reg rid ≤ 1) :
    liveCount (supStep reg e) rid ≤ 1 := by
  cases e with
  | launch rid2 pid envOk =>
      show liveCount (match launch reg rid2 pid envOk with
        | .ok reg2 => reg2
        | .error _ => reg) rid ≤ 1
      unfold launch
      by_cases he : envOk = false
      · rw [if_pos he]
        exact h
      · rw [if_neg he]
        by_cases hr : registered reg rid2 = true
        · rw [if_pos hr]
          exact h
        · rw [if_neg hr]
          show liveCount ((rid2, pid) :: reg) rid ≤ 1
          unfold liveCount
          rw [List.countP_cons]
          by_cases hid : rid2 = rid
          · have h0 : liveCount reg rid = 0 := by
              apply liveCount_eq_zero_of_not_registered
              rw [← hid]
              rw [Bool.not_eq_true] at hr
              exact hr
            unfold liveCount at h0
            rw [h0]
            simp [hid]
          · have hfalse : (((rid2, pid).1 == rid) = true) = False := by
              simp [hid]
            rw [if_neg (by simp [hid])]
            unfold liveCount at h
            omega
  | cleared rid2 =>
      show liveCount (clearProcess reg rid2) rid ≤ 1
      unfold clearProcess liveCount
      rw [List.countP_filter]
      have hmono : List.countP
          (fun p => (p.1 == rid) && !(p.1 == rid2)) reg ≤
          List.countP (fun p => p.1 == rid) reg := by
        apply List.countP_mono_left
        intro x hx hpx
        rw [Bool.and_eq_true] at hpx
        exact hpx.1
      unfold liveCount at h
      omega

/-- Along any trace of supervisor events from the empty registry, every
run id has at most one live entry. -/
theorem supTrace_liveCount (events : List SupEvent) (rid : String) :
    liveCount (supTrace events) rid ≤ 1 := by
  suffices h : ∀ reg : Registry, (∀ r2, liveCount reg r2 ≤ 1) →
      ∀ r2, liveCount (List.foldl supStep reg events) r2 ≤ 1 by
    exact h [] (fun r2 => by simp [liveCount]) rid
  induction events with
  | nil =>
      intro reg h r2
      exact h r2
  | cons e rest ih =>
      intro reg h r2
      exact ih (supStep reg e)
        (fun r3 => liveCount_supStep reg e r3 (h r3)) r2

/-- C1: for every run id and any trace of supervisor events from the empty
registry, the number of live OS processes registered against that run id
is 0 or 1, never more; and `launch` fails with a `SpawnError` whenever a
process for that run id is already registered. -/
theorem at_most_one_live_process (events : List SupEvent) (rid : String)
    (reg : Registry) (pid : Nat) (hreg : registered reg rid = true) :
    liveCount (supTrace events) rid ≤ 1
    ∧ launch reg rid pid true = Except.error (.alreadyRegistered rid)
    ∧ (∀ envOk, ∃ e, launch reg rid pid envOk = Except.error e) := by
  refine ⟨supTrace_liveCount events rid, ?_, ?_⟩
  · unfold launch
    rw [if_neg (by simp), if_pos hreg]
  · intro envOk
    cases envOk with
    | false =>
        exact ⟨.missingEnvironment, by unfold launch; rw [if_pos rfl]⟩
    | true =>
        exact ⟨.alreadyRegistered rid,
          by unfold launch; rw [if_neg (by simp), if_pos hreg]⟩

/-- Witness for C1: a second launch for a run id that already holds a live
process is rejected, and a duplicate-launch trace keeps the live count at
one. -/
theorem at_most_one_live_process_witness :
    liveCount (supTrace [SupEvent.launch "r1" 10 true,
      SupEvent.launch "r1" 11 true]) "r1" ≤ 1
    ∧ launch [("r1", 10)] "r1" 11 true =
        Except.error (.alreadyRegistered "r1") := by
  have h := at_most_one_live_process [SupEvent.launch "r1" 10 true,
    SupEvent.launch "r1" 11 true] "r1" [("r1", 10)] 11 (by decide)
  exact ⟨h.1, h.2.1⟩

/-- Appending one execution record adds its own contribution to the
running count of a target. -/
theorem runningFor_append_single (execs : List PluginExecution)
    (e : PluginExecution) (scope : PluginScope) (tid : String) :
    runningFor (execs ++ [e]) scope tid =
      runningFor execs scope tid +
      (if e.scope = scope ∧ e.targetId = tid ∧ e.status = .running
       then 1 else 0) := by
  unfold runningFor
  rw [List.countP_append]
  simp [List.countP_cons]

/-- Marking a finished execution with its terminal status never increases
the number of running executions of any target. -/
theorem runningFor_finishPlugin (execs : List PluginExecution)
    (execId : Nat) (fin : PluginFinal) (scope : PluginScope)
    (tid : String) :
    runningFor (finishPlugin execs execId fin) scope tid ≤
      runningFor execs scope tid := by
  unfold runningFor finishPlugin
  rw [List.countP_map]
  apply List.countP_mono_left
  intro e he hp
  simp only [Function.comp] at hp
  by_cases hid : e.executionId = execId
  · simp [hid] at hp
    cases fin <;> simp [finalStatus] at hp
  · simp [hid] at hp
    simpa using hp

/-- One coordinator event preserves the single-flight bound for every
target. -/
theorem runningFor_coordStep (execs : List PluginExecution)
    (e : CoordEvent) (scope : PluginScope) (tid : String)
    (h : runningFor execs scope tid ≤ 1) :
    runningFor (coordStep execs e) scope tid ≤ 1 := by
  cases e with
  | start name scope2 tid2 fid =>
      show runningFor (match startPlugin execs name scope2 tid2 fid with
        | .ok l => l
        | .error _ => execs) scope tid ≤ 1
      unfold startPlugin
      by_cases hrun : 0 < runningFor execs scope2 tid2
      · rw [if_pos hrun]
        exact h
      · rw [if_neg hrun]
        show runningFor (execs ++
          [{ executionId := fid, pluginName := name, scope := scope2,
             targetId := tid2, status := .running }]) scope tid ≤ 1
        rw [runningFor_append_single]
        by_cases hm : scope2 = scope ∧ tid2 = tid
        · have h0 : runningFor execs scope tid = 0 := by
            rw [← hm.1, ← hm.2]
            omega
          rw [h0]
          split <;> omega
        · rw [if_neg (by
            intro hc
            exact hm ⟨hc.1, hc.2.1⟩)]
          omega
  | finish execId fin =>
      show runningFor (finishPlugin execs execId fin) scope tid ≤ 1
      exact le_trans (runningFor_finishPlugin execs execId fin scope tid) h

/-- Along any trace of coordinator events from no executions, every target
has at most one running PluginExecution. -/
theorem coordTrace_single_flight (events : List CoordEvent)
    (scope : PluginScope) (tid : String) :
    runningFor (coordTrace events) scope tid ≤ 1 := by
  suffices h : ∀ execs : List PluginExecution,
      (∀ sc t2, runningFor execs sc t2 ≤ 1) →
      ∀ sc t2, runningFor (List.foldl coordStep execs events) sc t2 ≤ 1 by
    exact h [] (fun sc t2 => by simp [runningFor]) scope tid
  induction events with
  | nil =>
      intro execs h sc t2
      exact h sc t2
  | cons e rest ih =>
      intro execs h sc t2
      exact ih (coordStep execs e)
        (fun sc2 t3 => runningFor_coordStep execs e sc2 t3 (h sc2 t3)) sc t2

/-- C8: along any coordinator trace each automation target has at most one
running PluginExecution; `startPlugin` for a target that already has one
is rejected without creating a second, while a target with only
non-running executions is started anew by appending a fresh running
record. -/
theorem plugin_single_flight (events : List CoordEvent)
    (execs : List PluginExecution) (name : String) (scope : PluginScope)
    (tid : String) (fid : Nat) :
    runningFor (coordTrace events) scope tid ≤ 1
    ∧ (0 < runningFor execs scope tid →
        startPlugin execs name scope tid fid =
          Except.error (.alreadyRunning scope tid))
    ∧ (runningFor execs scope tid = 0 →
        startPlugin execs name scope tid fid =
          Except.ok (execs ++
            [{ executionId := fid, pluginName := name, scope := scope,
               targetId := tid, status := .running }])) := by
  refine ⟨coordTrace_single_flight events scope tid, ?_, ?_⟩
  · intro hrun
    unfold startPlugin
    rw [if_pos hrun]
  · intro hzero
    unfold startPlugin
    rw [if_neg (by omega)]

/-- Witness for C8: with one running execution for an experiment target, a
second start is rejected; with only a completed execution, a fresh running
record is appended. -/
theorem plugin_single_flight_witness :
    (startPlugin [{ executionId := 1
                    pluginName := "sweep"
                    scope := .experiment
                    targetId := "exp1"
                    status := .running }]
      "sweep" PluginScope.experiment "exp1" 2 =
      Except.error (.alreadyRunning PluginScope.experiment "exp1"))
    ∧ (startPlugin [{ executionId := 1
                      pluginName := "sweep"
                      scope := .experiment
                      targetId := "exp1"
                      status := .completed }]
      "sweep" PluginScope.experiment "exp1" 2 =
      Except.ok [{ executionId := 1
                   pluginName := "sweep"
                   scope := .experiment
                   targetId := "exp1"
                   status := .completed },
                 { executionId := 2
                   pluginName := "sweep"
                   scope := .experiment
                   targetId := "exp1"
                   status := .running }]) := by
  constructor
  · exact (plugin_single_flight [] _ "sweep" PluginScope.experiment "exp1"
      2).2.1 (by decide)
  · exact (plugin_single_flight [] _ "sweep" PluginScope.experiment "exp1"
      2).2.2 (by decide)

/-- Witness for C5: a concrete run driven through execute, stop and a
force restart keeps its creation snapshot. -/
theorem snapshot_never_rewritten_witness :
    (applyOps (mkRun ⟨"behaviors: walker", [("lr", "0.1")]⟩)
      [.execute 1 2, .confirmAlive, .stop (some 500) 10 9,
       .restart .force 12 3]).snapshot =
      ⟨"behaviors: walker", [("lr", "0.1")]⟩ :=
  (snapshot_never_rewritten ⟨"behaviors: walker", [("lr", "0.1")]⟩
    [.execute 1 2, .confirmAlive, .stop (some 500) 10 9,
     .restart .force 12 3]).1

/-- Witness for C9: a concrete failed run's status string is one of the
seven lifecycle values and is not `pending`. -/
theorem status_vocabulary_witness :
    statusName (applyOps (mkRun ⟨"v", []⟩)
      [.execute 0 1, .confirmAlive, .processExited 1 5]).status ∈
      ["created", "starting", "running", "succeeded", "failed", "stopped",
       "killed"]
    ∧ statusName (applyOps (mkRun ⟨"v", []⟩)
        [.execute 0 1, .confirmAlive, .processExited 1 5]).status ≠
      "pending" :=
  status_vocabulary ⟨"v", []⟩ [.execute 0 1, .confirmAlive,
    .processExited 1 5]

end ArenaLab
